import Mathlib

/-!
Shallow embedding of `src/packages/web3-core-package/src/AbstractWeb3Object.js`
(the whole source of this repository) and proofs about the claims of the
specification.  Every definition is translated from the JavaScript source;
line numbers in doc comments refer to that file.  The file runs in strict
mode (`"use strict"`, line 23), so a read of an undeclared identifier is a
`ReferenceError` and a property access on `null` is a `TypeError`.
-/

set_option linter.unusedVariables false

namespace Web3CoreSpec

/-- JavaScript errors thrown by the code paths modelled here. -/
inductive JsError where
  /-- `throw Error(msg)` / `throw new Error(msg)`. -/
  | error (msg : String)
  /-- property access on `null`/`undefined`. -/
  | typeError (msg : String)
  /-- read of an identifier that is declared in no enclosing scope. -/
  | referenceError (ident : String)
deriving DecidableEq, Repr

/-- A constructor argument as the dependency check sees it: `null`,
`undefined`, or an actual value. -/
inductive JsDep where
  | jsNull
  | jsUndefined
  | given (id : Nat)
deriving DecidableEq, Repr

/-- `object !== null` (strict inequality: `undefined !== null` is true). -/
def jsNeqNull : JsDep → Bool
  | JsDep.jsNull => false
  | _ => true

/-- `typeof object` is the string `"undefined"` exactly for `undefined`
(`typeof null` is `"object"`). -/
def typeofIsUndefined : JsDep → Bool
  | JsDep.jsUndefined => true
  | _ => false

/-- Lines 106-108: `return object !== null || typeof object !== 'undefined';`.
Translated literally, disjunction included. -/
def isDependencyGiven (object : JsDep) : Bool :=
  jsNeqNull object || !typeofIsUndefined object

/-- Lines 41-47 of the constructor: the two dependency checks, each throwing
`Error(...)` when `isDependencyGiven` is false. -/
def constructorDependencyCheck (provider providersPackage : JsDep) : Except JsError Unit :=
  if isDependencyGiven provider = false then
    Except.error (JsError.error "Provider not found!")
  else if isDependencyGiven providersPackage = false then
    Except.error (JsError.error "ProviderPackage not found!")
  else
    Except.ok ()

/-- A transport ("provider"), reduced to the data the source reads from it:
an identity, whether `typeof p.clearSubscriptions !== 'undefined'` (line 70),
and `p.subscriptions.length` (line 70; transports modelled here carry a
`subscriptions` array). -/
structure Provider where
  id : Nat
  hasClearSubscriptions : Bool
  subscriptionsLength : Nat
deriving DecidableEq, Repr

/-- The providers package, reduced to an identity and what `detect()` (line 52)
returns.  (The three constructor names re-exported on lines 54-58 are
introspection labels and are not read by any modelled operation; `resolve`,
being a function, is passed explicitly to the operations that call it.) -/
structure ProvidersPackage where
  pkgId : Nat
  detected : Option Provider
deriving DecidableEq, Repr

/-- A method model as the dispatcher observes it (the `AbstractMethodModel`
collaborator is external; these are the fields the source reads or writes:
`methodArguments` on line 224 and `request` on line 230), plus the wire data
(`method.call`, `method.params`) an `ExtensionMethodModel` (lines 166-168)
captures. -/
structure MethodModel where
  rpcMethod : String
  parametersAmount : Nat
  methodArguments : Option (List Nat)
  request : Nat
deriving DecidableEq, Repr

/-- Association-list lookup used to model JavaScript object-key lookup
(`methodModels[name]`, `target[name]`). -/
def alookup {α : Type} : List (String × α) → String → Option α
  | [], _ => none
  | (k, v) :: rest, n => if k = n then some v else alookup rest n

/-- Association-list update used to model JavaScript object-key assignment
(`methodModels[name] = model`): overwrite an existing key, append otherwise. -/
def aset {α : Type} : List (String × α) → String → α → List (String × α)
  | [], n, v => [(n, v)]
  | (k, w) :: rest, n, v => if k = n then (n, v) :: rest else (k, w) :: aset rest n v

/-- The method model factory, as the source reads it: `utils` and `formatters`
(line 156) and the `methodModels` key table (line 200).  `hasMethodModel` /
`createMethodModel` (lines 216 and 221) are lookups into that table
(spec section 4.2: pure lookup; fresh model per creation). -/
structure Factory where
  utils : Nat
  formatters : Nat
  methodModels : List (String × MethodModel)
deriving DecidableEq, Repr

/-- `methodModelFactory.hasMethodModel(name)` (line 216). -/
def Factory.hasMethodModel (f : Factory) (name : String) : Bool :=
  (alookup f.methodModels name).isSome

/-- `methodModelFactory.createMethodModel(name)` (line 221): the model the
registered entry constructs. -/
def Factory.createMethodModel (f : Factory) (name : String) : Option MethodModel :=
  alookup f.methodModels name

/-- The state of one client object (`AbstractWeb3Object` instance) without its
`extendedPackages` list.  `slot` is the closure variable `currentProvider`
declared on line 60 that backs the `currentProvider` accessor of lines 65-77;
`members` abstracts the object's other property table, used by the proxy
handler's `target[name]` lookups (values opaque). -/
structure ClientBase where
  ownerId : Nat
  slot : Option Provider
  providersPackage : ProvidersPackage
  givenProvider : Option Provider
  methodController : Nat
  methodModelFactory : Factory
  accounts : Option Nat
  members : List (String × Nat)
deriving DecidableEq, Repr

/-- The constructor body, lines 49-94, after the dependency checks.  The write
`this.currentProvider = provider` on line 51 creates a data property that
lines 65-77 immediately redefine as an accessor backed by the closure variable
`var currentProvider = null` of line 60 — so the provider argument is dropped
and the slot reads `null` after construction.  (The guards of lines 79 and 85
always pass, because `isDependencyGiven` is constantly true; the
`methodController`/`methodModelFactory` assignments of lines 86-87 are
unconditional in effect.) -/
def mkClient (ownerId : Nat) (provider : Option Provider) (pkg : ProvidersPackage)
    (methodController : Nat) (factory : Factory) : ClientBase :=
  { ownerId := ownerId
    slot := none
    providersPackage := pkg
    givenProvider := pkg.detected
    methodController := methodController
    methodModelFactory := factory
    accounts := none
    members := [] }

/-- Observable events of a provider swap: the call `clearSubscriptions()` on the
transport being replaced (line 71), and the assignment making a resolved
transport the value returned by the `currentProvider` getter (line 74). -/
inductive Ev where
  | clearedSubscriptions (p : Provider)
  | providerAssigned (owner : Nat) (p : Provider)
deriving DecidableEq, Repr

/-- The guard of line 70:
`typeof currentProvider.clearSubscriptions !== 'undefined' && currentProvider.subscriptions.length > 0`,
as the event(s) it produces (line 71). -/
def clearEvents (cur : Provider) : List Ev :=
  if cur.hasClearSubscriptions ∧ 0 < cur.subscriptionsLength then
    [Ev.clearedSubscriptions cur]
  else
    []

/-- Lines 70-74, once the held transport `cur` is known non-null: possibly
clear, then assign `providersPackage.resolve(provider)`.  Returns the new slot
value and the trace of events in the order the source performs them.
`resolve` is the external registry's resolution function. -/
def providerSwap (resolve : Provider → Provider) (owner : Nat)
    (cur : Provider) (candidate : Provider) : Provider × List Ev :=
  (resolve candidate,
   clearEvents cur ++ [Ev.providerAssigned owner (resolve candidate)])

/-- The `currentProvider` setter, lines 69-75.  When the backing variable is
`null` (its state after construction), line 70 dereferences `null` and throws
a `TypeError` before anything is assigned. -/
def setSlot (resolve : Provider → Provider) (owner : Nat)
    (slot : Option Provider) (candidate : Provider) :
    Except JsError (Provider × List Ev) :=
  match slot with
  | none =>
    Except.error (JsError.typeError "Cannot read property clearSubscriptions of null")
  | some cur => Except.ok (providerSwap resolve owner cur candidate)

/-- `setProvider` (lines 117-127) restricted to a client with no extended
packages — which is every client as constructed (line 49) and every child
`extend` creates: `this.currentProvider = provider` runs the setter, and the
`forEach` of lines 122-126 is empty. -/
def setProviderBase (resolve : Provider → Provider) (c : ClientBase)
    (candidate : Provider) : Except JsError (ClientBase × List Ev) :=
  match setSlot resolve c.ownerId c.slot candidate with
  | Except.error e => Except.error e
  | Except.ok (p, evs) => Except.ok ({ c with slot := some p }, evs)

/-- A top-level client object: its own state plus the `extendedPackages` list
(line 49).  The children are modelled at one nesting level; every child the
source constructs (lines 152-159) starts with an empty `extendedPackages`
list of its own, so its `setProvider` reduces to `setProviderBase`. -/
structure Client where
  base : ClientBase
  extendedPackages : List ClientBase
deriving DecidableEq, Repr

/-- The `forEach` of lines 122-126: each extended package's `setProvider` is
called with `self.currentProvider`, the parent's (already updated, resolved)
slot value, in insertion order; events are concatenated in call order. -/
def setChildren (resolve : Provider → Provider) (p : Provider) :
    List ClientBase → Except JsError (List ClientBase × List Ev)
  | [] => Except.ok ([], [])
  | c :: cs =>
    match setProviderBase resolve c p with
    | Except.error e => Except.error e
    | Except.ok (c2, evs) =>
      match setChildren resolve p cs with
      | Except.error e => Except.error e
      | Except.ok (cs2, evss) => Except.ok (c2 :: cs2, evs ++ evss)

/-- `setProvider` (lines 117-127) on a top-level client: first
`this.currentProvider = provider` (the setter), then the children in
insertion order, each receiving `self.currentProvider`. -/
def Client.setProvider (resolve : Provider → Provider) (c : Client)
    (candidate : Provider) : Except JsError (Client × List Ev) :=
  match setSlot resolve c.base.ownerId c.base.slot candidate with
  | Except.error e => Except.error e
  | Except.ok (p, evs) =>
    match setChildren resolve p c.extendedPackages with
    | Except.error e => Except.error e
    | Except.ok (cs, evss) =>
      Except.ok ({ base := { c.base with slot := some p }, extendedPackages := cs },
                 evs ++ evss)

/-- What the proxy `get` trap returns: either a plain member (possibly
`undefined`, i.e. `none`) or the synthesized callable of lines 223-232. -/
structure SynthCallable where
  methodModel : MethodModel
  request : Nat
deriving DecidableEq, Repr

/-- Result of one property access routed through the proxy handler. -/
inductive DispatchResult where
  | member (v : Option Nat)
  | callable (c : SynthCallable)
deriving DecidableEq, Repr

/-- `proxyHandler` (lines 215-236).  The outer branch is
`target.methodModelFactory.hasMethodModel(name)`, realized by matching on the
table lookup; inside it, `typeof target[name] !== 'undefined'` throws the
duplicated-method `Error` (lines 217-219) — synthesized callables are never
stored on the target, so a defined member is never "the synthesized callable"
itself.  Otherwise a callable carrying the created model and its `request`
descriptor is returned (lines 221-232); with no model, `target[name]` is
returned unchanged (line 235). -/
def proxyHandler (target : ClientBase) (name : String) : Except JsError DispatchResult :=
  match alookup target.methodModelFactory.methodModels name with
  | some methodModel =>
    if (alookup target.members name).isSome then
      Except.error (JsError.error
        ("Duplicated method " ++ name ++
         ". This method is defined as RPC call and as Object method."))
    else
      Except.ok (DispatchResult.callable
        { methodModel := methodModel, request := methodModel.request })
  | none => Except.ok (DispatchResult.member (alookup target.members name))

/-- A property access on the proxied client: the trap's result together with
the method model factory afterwards.  The handler performs no factory
mutation (`hasMethodModel` is a pure lookup and `createMethodModel` returns a
fresh model, spec section 4.2), so the factory is passed through. -/
def accessProperty (target : ClientBase) (name : String) :
    Except JsError DispatchResult × Factory :=
  (proxyHandler target name, target.methodModelFactory)

/-- Invoking the synthesized callable (lines 223-227): `arguments` are stored
as the model's `methodArguments`, then the controller's
`execute(methodModel, target.currentProvider, target.accounts, target)` is
called and its result returned unchanged.  `execute` is the external method
controller's function; `target.currentProvider` is read at invocation time
(the slot of the `target` passed here); the target itself is passed by its
identity. -/
def invokeSynthesized {R : Type} (execute : MethodModel → Option Provider → Option Nat → Nat → R)
    (target : ClientBase) (c : SynthCallable) (args : List Nat) : R :=
  execute { c.methodModel with methodArguments := some args }
    target.slot target.accounts target.ownerId

/-- One method descriptor of an `extend` call (lines 164-201): `method.name`,
`method.call` and `method.params`.  (`method.inputFormatters` and
`method.outputFormatter` feed only the hook functions, modelled separately by
`afterExecution` below.) -/
structure MethodDescr where
  name : String
  call : String
  params : Nat
deriving DecidableEq, Repr

/-- The argument of `extend` (line 147): the optional `extension.property` and
`extension.methods` (absent modelled as the empty list). -/
structure ExtensionSpec where
  property : Option String
  methods : List MethodDescr
deriving DecidableEq, Repr

/-- `var namespace = extension.property || false` (line 148): an absent
`property` and the empty string — falsy in JavaScript — both leave
`namespace` false, i.e. no namespace. -/
def namespaceOf (ext : ExtensionSpec) : Option String :=
  match ext.property with
  | some ns => if ns = "" then none else some ns
  | none => none

/-- The `ExtensionMethodModel` registered for one descriptor (lines 166-168
and 200): it captures `method.call` and `method.params`; `methodArguments`
starts unset and `request` is the fresh model's descriptor slot. -/
def extensionModel (m : MethodDescr) : MethodModel :=
  { rpcMethod := m.call
    parametersAmount := m.params
    methodArguments := none
    request := 0 }

/-- The `forEach` of lines 165-201 over `extension.methods`:
`object.methodModelFactory.methodModels[method.name] = ExtensionMethodModel`,
in descriptor order. -/
def registerAll (f : Factory) (ms : List MethodDescr) : Factory :=
  ms.foldl (fun f m => { f with methodModels := aset f.methodModels m.name (extensionModel m) }) f

/-- `extend` (lines 147-203).  With a truthy namespace (per `namespaceOf`): a
child of the same concrete type is constructed (lines 152-157) via
`new this.constructor(this.provider, this.providersPackage,
this.methodController, new this.methodModelFactory.constructor(utils,
formatters))` — note the first argument is `this.provider`, a property the
source never assigns, hence `undefined` (`none` here); the child gets a fresh
factory seeded with the parent's `utils` and `formatters` and an empty model
table; the child is stored under `this[namespace]` (member value: the child's
id) and pushed onto `extendedPackages` (line 159); the method registrations
target the child.  With a falsy namespace (absent `property` or the empty
string), `object = this` (line 161) and the registrations target the parent
itself. -/
def extendClient (c : Client) (childId : Nat) (ext : ExtensionSpec) : Client :=
  match namespaceOf ext with
  | some ns =>
    let childFactory : Factory :=
      { utils := c.base.methodModelFactory.utils
        formatters := c.base.methodModelFactory.formatters
        methodModels := [] }
    let child0 := mkClient childId none c.base.providersPackage
      c.base.methodController childFactory
    let child := { child0 with methodModelFactory := registerAll child0.methodModelFactory ext.methods }
    { base := { c.base with members := aset c.base.members ns childId }
      extendedPackages := c.extendedPackages ++ [child] }
  | none =>
    { c with base := { c.base with
        methodModelFactory := registerAll c.base.methodModelFactory ext.methods } }

/-- A JavaScript value as the after-execution hook observes it. -/
inductive JVal where
  | vnull
  | vundef
  | vstr (s : String)
  | vint (n : Int)
deriving DecidableEq, Repr

/-- JavaScript truthiness of the values above (`null`, `undefined`, `""` and
`0` are falsy). -/
def truthyJ : JVal → Bool
  | JVal.vnull => false
  | JVal.vundef => false
  | JVal.vstr s => !(s == "")
  | JVal.vint n => !(n == 0)

/-- A controller response: a sequence (`_.isArray(response)` true) or a
single value. -/
inductive JResp where
  | scalar (v : JVal)
  | arr (items : List JVal)
deriving DecidableEq, Repr

/-- `ExtensionMethodModel.prototype.afterExecution` (lines 178-196).  The
array branch maps over the items, applying `method.outputFormatter` to each
item that is truthy when a formatter is present (lines 179-189).  The
non-array branch evaluates `method.outputFormatter && result` (line 191):
when a formatter is present (truthy), the identifier `result`, declared in no
enclosing scope, is read — a strict-mode `ReferenceError`; without a
formatter the short-circuit skips it and the response is returned unchanged. -/
def afterExecution (outputFormatter : Option (JVal → JVal)) : JResp → Except JsError JResp
  | JResp.arr items =>
    Except.ok (JResp.arr (items.map fun responseItem =>
      match outputFormatter with
      | some f => if truthyJ responseItem then f responseItem else responseItem
      | none => responseItem))
  | JResp.scalar v =>
    match outputFormatter with
    | some _ => Except.error (JsError.referenceError "result")
    | none => Except.ok (JResp.scalar v)

/-- The `hexToInt` output formatter of the specification's scenario (an
external formatting utility): parses a `0x`-prefixed hexadecimal string. -/
def hexDigitVal (c : Char) : Nat :=
  if '0' ≤ c ∧ c ≤ '9' then c.toNat - '0'.toNat
  else if 'a' ≤ c ∧ c ≤ 'f' then c.toNat - 'a'.toNat + 10
  else if 'A' ≤ c ∧ c ≤ 'F' then c.toNat - 'A'.toNat + 10
  else 0

/-- Hexadecimal value of a character list. -/
def hexNat (cs : List Char) : Nat :=
  cs.foldl (fun a c => a * 16 + hexDigitVal c) 0

/-- `hexToInt` on a value: hex strings become integers, all else is
unchanged. -/
def hexToInt : JVal → JVal
  | JVal.vstr s =>
    match s.data with
    | '0' :: 'x' :: rest => JVal.vint (Int.ofNat (hexNat rest))
    | _ => JVal.vstr s
  | v => v

/-- The `BatchRequest` closure of lines 79-83: it returns
`batchRequestPackage.createBatchRequest(self.currentProvider)`.  The
identifier `self` is resolved through the enclosing scopes; `selfBinding` is
what those scopes bind it to (the value of `var self = this` if such a
declaration existed).  With no binding the strict-mode read throws a
`ReferenceError`; with one, the batch collaborator is called with that
object's current provider (the provider at call time, by value). -/
def batchRequestCall (selfBinding : Option ClientBase)
    (createBatchRequest : Option Provider → Nat) : Except JsError Nat :=
  match selfBinding with
  | none => Except.error (JsError.referenceError "self")
  | some s => Except.ok (createBatchRequest s.slot)

/-- The binding of `self` in the constructor's scope chain (lines 34-95):
unlike `setProvider` (line 118, `var self = this;`), the constructor declares
no `self`, and the module declares none either — so the closure of lines
80-82 sees no binding. -/
def constructorScopeSelf : Option ClientBase := none

/-- A concrete client for exercising the dispatcher: method model `foo`
registered, and a plain own member also called `foo`. -/
def c4Target : ClientBase :=
  { ownerId := 0
    slot := none
    providersPackage := ProvidersPackage.mk 2 none
    givenProvider := none
    methodController := 7
    methodModelFactory := Factory.mk 3 4 [("foo", MethodModel.mk "eth_foo" 1 none 8)]
    accounts := none
    members := [("foo", 5)] }

/-- A concrete client with transport 4 held and method model
`eth_blockNumber` registered, no colliding member. -/
def c5Target : ClientBase :=
  { ownerId := 1
    slot := some (Provider.mk 4 false 0)
    providersPackage := ProvidersPackage.mk 2 none
    givenProvider := none
    methodController := 7
    methodModelFactory :=
      Factory.mk 3 4 [("eth_blockNumber", MethodModel.mk "eth_blockNumber" 0 none 8)]
    accounts := none
    members := [] }

/-- A concrete parent client with an empty method model table. -/
def c8Parent : Client :=
  { base :=
      { ownerId := 0
        slot := none
        providersPackage := ProvidersPackage.mk 2 none
        givenProvider := none
        methodController := 7
        methodModelFactory := Factory.mk 3 4 []
        accounts := none
        members := [] }
    extendedPackages := [] }

/-- An extension adding namespace `x` with one method `foo`. -/
def c8Ext : ExtensionSpec :=
  { property := some "x"
    methods := [MethodDescr.mk "foo" "eth_foo" 0] }

/-- A concrete parent client whose provider slot holds transport 5. -/
def c9Parent : Client :=
  { base :=
      { ownerId := 0
        slot := some (Provider.mk 5 false 0)
        providersPackage := ProvidersPackage.mk 2 none
        givenProvider := none
        methodController := 7
        methodModelFactory := Factory.mk 3 4 []
        accounts := none
        members := [] }
    extendedPackages := [] }

end Web3CoreSpec

namespace Web3CoreSpec

/-- Claim C1: after a successful construction the provider slot holds the
transport supplied at construction and never null.  Refuted by the code: the
constructor initialises the accessor's backing variable to `null` (line 60)
after the line-51 write, so `currentProvider` reads `null`.  This theorem
evaluates the constructor at a concrete non-null provider. -/
theorem c1_construction_slot_reads_null :
    (mkClient 0 (some (Provider.mk 1 true 1)) (ProvidersPackage.mk 2 none) 7
        (Factory.mk 3 4 [])).slot = none ∧
    (some (Provider.mk 1 true 1) : Option Provider) ≠ none := by
  constructor
  · rfl
  · intro h
    cases h

/-- Claim C2: construction is claimed to fail with a missing-dependency error
when the provider or the providers package is null or undefined.  Refuted by
the code: `isDependencyGiven` (lines 106-108) uses `||` where its doc comment
("Checks if the parameter is defined") requires `&&`, so it returns true on
every input — including `null` and `undefined` — and the constructor's checks
of lines 41-47 never throw. -/
theorem c2_dependency_check_never_fails :
    (∀ o, isDependencyGiven o = true) ∧
    constructorDependencyCheck JsDep.jsNull (JsDep.given 0) = Except.ok () ∧
    constructorDependencyCheck JsDep.jsUndefined JsDep.jsNull = Except.ok () := by
  refine ⟨?_, rfl, rfl⟩
  intro o
  cases o <;> rfl

/-- Claim C3: on every successful set of the provider slot, if the previously
held transport exposes `clearSubscriptions` and reports at least one live
subscription, then `clearSubscriptions` is invoked exactly once on it, before
the new (resolved) transport becomes observable; the candidate is arbitrary —
in particular it may be the very transport currently held, with no
special-casing of identity.  The event trace is exactly one clear of the old
transport followed by the assignment. -/
theorem c3_set_clears_old_subscriptions_once (resolve : Provider → Provider)
    (owner : Nat) (cur candidate : Provider)
    (hclr : cur.hasClearSubscriptions = true)
    (hsub : 0 < cur.subscriptionsLength) :
    setSlot resolve owner (some cur) candidate =
      Except.ok (resolve candidate,
        [Ev.clearedSubscriptions cur,
         Ev.providerAssigned owner (resolve candidate)]) := by
  simp [setSlot, providerSwap, clearEvents, hclr, hsub]

/-- Witness for C3, with the candidate the identical transport currently held
and the registry resolving a ready transport to itself. -/
theorem c3_set_clears_old_subscriptions_once_witness :
    setSlot (fun p => p) 0 (some (Provider.mk 1 true 2)) (Provider.mk 1 true 2) =
      Except.ok (Provider.mk 1 true 2,
        [Ev.clearedSubscriptions (Provider.mk 1 true 2),
         Ev.providerAssigned 0 (Provider.mk 1 true 2)]) :=
  c3_set_clears_old_subscriptions_once (fun p => p) 0
    (Provider.mk 1 true 2) (Provider.mk 1 true 2) rfl (by decide)

/-- Claim C6: `setProvider(P)` on a top-level client with extended packages
`A` then `B` is claimed to update the parent's slot and then each child's, in
order.  Refuted by the code: every client the program constructs has a `null`
slot backing variable (line 60; the line-51 write is discarded, and the
line-74 assignment sits after line 70's null dereference, so the variable can
never become non-null), so every `setProvider` call throws a `TypeError` at
line 70 and updates neither the parent nor any child.  This theorem evaluates
`setProvider` on a client constructed by the modelled constructor and twice
extended (packages `a` then `b`, as the program really builds them). -/
theorem c6_setProvider_throws_on_constructed_clients :
    (extendClient
        (extendClient
          (Client.mk
            (mkClient 0 (some (Provider.mk 1 false 0)) (ProvidersPackage.mk 2 none) 7
              (Factory.mk 3 4 []))
            [])
          10 (ExtensionSpec.mk (some "a") []))
        11 (ExtensionSpec.mk (some "b") [])).extendedPackages.length = 2 ∧
    Client.setProvider (fun p => p)
      (extendClient
        (extendClient
          (Client.mk
            (mkClient 0 (some (Provider.mk 1 false 0)) (ProvidersPackage.mk 2 none) 7
              (Factory.mk 3 4 []))
            [])
          10 (ExtensionSpec.mk (some "a") []))
        11 (ExtensionSpec.mk (some "b") []))
      (Provider.mk 9 false 0) =
      Except.error (JsError.typeError "Cannot read property clearSubscriptions of null") := by
  exact ⟨rfl, rfl⟩

/-- Claim C4: with no registered model for the requested name, the dispatcher
returns the plain member `target[name]` unchanged; with a registered model
and a defined member of that name (synthesized callables are never stored as
members), the access fails with the duplicated-method error — and in both
cases the method model factory is left unchanged. -/
theorem c4_dispatcher_fallthrough_and_collision (t : ClientBase) (name : String) :
    (Factory.hasMethodModel t.methodModelFactory name = false →
      proxyHandler t name = Except.ok (DispatchResult.member (alookup t.members name)) ∧
      (accessProperty t name).2 = t.methodModelFactory) ∧
    (Factory.hasMethodModel t.methodModelFactory name = true →
      (alookup t.members name).isSome = true →
      proxyHandler t name = Except.error (JsError.error
        ("Duplicated method " ++ name ++
         ". This method is defined as RPC call and as Object method.")) ∧
      (accessProperty t name).2 = t.methodModelFactory) := by
  constructor
  · intro h
    unfold Factory.hasMethodModel at h
    cases hm : alookup t.methodModelFactory.methodModels name with
    | none => exact ⟨by simp [proxyHandler, hm], rfl⟩
    | some m => rw [hm] at h; simp at h
  · intro h hmem
    unfold Factory.hasMethodModel at h
    cases hm : alookup t.methodModelFactory.methodModels name with
    | none => rw [hm] at h; simp at h
    | some m => exact ⟨by simp [proxyHandler, hm, hmem], rfl⟩

/-- Witness for C4: on `c4Target`, accessing `bar` (no model) falls through to
the member table, and accessing `foo` (model and member both present) raises
the duplicated-method error; the factory is unchanged in both cases. -/
theorem c4_dispatcher_fallthrough_and_collision_witness :
    (proxyHandler c4Target "bar" = Except.ok (DispatchResult.member none) ∧
     (accessProperty c4Target "bar").2 = c4Target.methodModelFactory) ∧
    (proxyHandler c4Target "foo" = Except.error (JsError.error
        ("Duplicated method " ++ "foo" ++
         ". This method is defined as RPC call and as Object method.")) ∧
     (accessProperty c4Target "foo").2 = c4Target.methodModelFactory) :=
  ⟨(c4_dispatcher_fallthrough_and_collision c4Target "bar").1 (by decide),
   (c4_dispatcher_fallthrough_and_collision c4Target "foo").2 (by decide) (by decide)⟩

/-- Claim C5: accessing a registered method name with no colliding member
yields the synthesized callable carrying the created method model and its
`request` descriptor; invoking it stores the call arguments as the model's
`methodArguments` and returns, unchanged, the result of the method
controller's `execute` applied to that model, the current provider, the
accounts context and the client. -/
theorem c5_registered_method_dispatch {R : Type} (t : ClientBase) (name : String)
    (tmpl : MethodModel)
    (execute : MethodModel → Option Provider → Option Nat → Nat → R) (args : List Nat)
    (hm : alookup t.methodModelFactory.methodModels name = some tmpl)
    (hmem : alookup t.members name = none) :
    proxyHandler t name =
      Except.ok (DispatchResult.callable
        { methodModel := tmpl, request := tmpl.request }) ∧
    invokeSynthesized execute t { methodModel := tmpl, request := tmpl.request } args =
      execute { tmpl with methodArguments := some args } t.slot t.accounts t.ownerId := by
  constructor
  · simp [proxyHandler, hm, hmem]
  · rfl

/-- Witness for C5: on `c5Target`, accessing `eth_blockNumber` yields the
callable, and invoking it with arguments `[4, 5]` hands the controller the
model with those arguments stored, the held transport 4, the (absent)
accounts context and the client — the controller's result returned as is. -/
theorem c5_registered_method_dispatch_witness :
    proxyHandler c5Target "eth_blockNumber" =
      Except.ok (DispatchResult.callable
        (SynthCallable.mk (MethodModel.mk "eth_blockNumber" 0 none 8) 8)) ∧
    invokeSynthesized (fun m p a o => (m.methodArguments, p, a, o)) c5Target
        (SynthCallable.mk (MethodModel.mk "eth_blockNumber" 0 none 8) 8) [4, 5] =
      (some [4, 5], some (Provider.mk 4 false 0), none, 1) :=
  c5_registered_method_dispatch c5Target "eth_blockNumber"
    (MethodModel.mk "eth_blockNumber" 0 none 8)
    (fun m p a o => (m.methodArguments, p, a, o)) [4, 5] rfl rfl

/-- Claim C7: the after-execution hook of an extension method maps the output
formatter over a sequence response ( `["0x1","0x2"]` with `hexToInt` yields
`[1,2]` ), but on a non-sequence response it does not apply the formatter
once: line 191 reads the undeclared identifier `result`, so the scalar case
`"0x5"` raises a strict-mode `ReferenceError` instead of yielding `5` — the
defect the specification flags in section 9. -/
theorem c7_afterExecution_scalar_formatter_throws :
    afterExecution (some hexToInt) (JResp.arr [JVal.vstr "0x1", JVal.vstr "0x2"]) =
      Except.ok (JResp.arr [JVal.vint 1, JVal.vint 2]) ∧
    afterExecution (some hexToInt) (JResp.scalar (JVal.vstr "0x5")) =
      Except.error (JsError.referenceError "result") := by
  exact ⟨rfl, rfl⟩

/-- Counterexample to claim C8 as stated: an `extend` call that supplies the
namespace `""` does not keep the registered name out of the parent's factory.
`extension.property || false` (line 148) is falsy for the empty string, so
the source takes the no-namespace branch (`object = this`, line 161) and line
200 registers the method into the parent's own factory: `hasMethodModel` on
the parent's factory flips from false to true. -/
theorem c8_extend_empty_namespace_registers_on_parent :
    Factory.hasMethodModel c8Parent.base.methodModelFactory "foo" = false ∧
    Factory.hasMethodModel
      (extendClient c8Parent 1
        (ExtensionSpec.mk (some "") [MethodDescr.mk "foo" "eth_foo" 0])).base.methodModelFactory
      "foo" = true := by
  exact ⟨rfl, rfl⟩

/-- Claim C8, amended: for every `extend` call that supplies a truthy (i.e.
non-empty) namespace, the method models registered by that call go only into
the child's own factory: the parent's factory is unchanged, so any registered
name with no model in the parent's factory beforehand still has none
afterwards.  (A call whose `property` is the empty string is treated by line
148's truthiness coercion as supplying no namespace and registers into the
parent's factory instead.) -/
theorem c8_extend_namespace_is_isolated (c : Client) (childId : Nat)
    (ext : ExtensionSpec) (ns : String) (hns : namespaceOf ext = some ns) :
    (extendClient c childId ext).base.methodModelFactory = c.base.methodModelFactory ∧
    ∀ n, n ∈ ext.methods.map MethodDescr.name →
      Factory.hasMethodModel c.base.methodModelFactory n = false →
      Factory.hasMethodModel (extendClient c childId ext).base.methodModelFactory n = false := by
  have hfac : (extendClient c childId ext).base.methodModelFactory =
      c.base.methodModelFactory := by
    simp [extendClient, hns]
  exact ⟨hfac, fun n _ h => by rw [hfac]; exact h⟩

/-- Witness for C8: extending `c8Parent` with namespace `x` and method `foo`
leaves the parent's factory unchanged, and `foo` stays unresolvable there. -/
theorem c8_extend_namespace_is_isolated_witness :
    (extendClient c8Parent 1 c8Ext).base.methodModelFactory =
      c8Parent.base.methodModelFactory ∧
    Factory.hasMethodModel (extendClient c8Parent 1 c8Ext).base.methodModelFactory "foo" =
      false :=
  ⟨(c8_extend_namespace_is_isolated c8Parent 1 c8Ext "x" rfl).1,
   (c8_extend_namespace_is_isolated c8Parent 1 c8Ext "x" rfl).2 "foo"
     (by decide) (by decide)⟩

/-- Claim C9: the child constructed by a namespaced `extend` is claimed to
share the parent's provider.  Refuted by the code: the construction of lines
152-157 passes `this.provider` — a property the source never assigns, hence
`undefined` — and the constructor initialises the slot's backing variable to
`null` regardless, so the child's `currentProvider` is `null` even while the
parent holds transport 5.  (The providers package and method controller are
shared, and the child is appended exactly once, as this theorem also
records.) -/
theorem c9_extend_child_does_not_share_provider :
    (extendClient c9Parent 1 (ExtensionSpec.mk (some "x") [])).extendedPackages.map
        (fun ch => (ch.slot, ch.providersPackage, ch.methodController)) =
      [((none : Option Provider), ProvidersPackage.mk 2 none, 7)] ∧
    c9Parent.base.slot = some (Provider.mk 5 false 0) := by
  exact ⟨rfl, rfl⟩

/-- Claim C10: invoking the client's `BatchRequest` is claimed to return a
batch collector bound to the client's current provider.  Refuted by the code:
the closure of lines 80-82 reads `self`, an identifier the constructor never
declares (unlike `setProvider`, line 118), so under strict mode the call
throws a `ReferenceError` and never reaches the batch collaborator, for every
`createBatchRequest` the batch package could supply. -/
theorem c10_batchRequest_reads_unbound_self :
    ∀ createBatchRequest, batchRequestCall constructorScopeSelf createBatchRequest =
      Except.error (JsError.referenceError "self") :=
  fun _ => rfl

end Web3CoreSpec
